import Mathlib

/-!
Verification of the library lifecycle and versioned retrieval engine of
`open-context7-api` (src/services/library.py, src/services/storage.py,
src/api/v1/library.py), shallowly embedded in Lean.

The Qdrant vector index is modelled as explicit state: one catalog
collection of library headers (collection "libraries") plus one
per-library partition of snippet points, both as association lists keyed
by point/collection id.  Embedding vectors are carried opaquely as
`List Int`; their numeric content never influences control flow in the
embedded code.  External capabilities (AI embedding, content processor,
GitLab origin) are injected as `Except`/parameter values, mirroring the
points where the Python code awaits them and may catch their exceptions.
-/

namespace OpenContext7

/-- src/core/constants.py: `DEFAULT_LIBRARY_TAG = "latest"`. -/
def DEFAULT_LIBRARY_TAG : String := "latest"

/-- src/core/enums.py: `LibraryStatus` — processing | finalized | failed. -/
inductive LibraryStatus
  | processing
  | finalized
  | failed
deriving DecidableEq, Repr

/-- src/core/errors.py: the application error taxonomy raised by the service
layer (`ValidationError`, `ResourceNotFoundError`, `ResourceAlreadyExistsError`)
plus a generic constructor for exceptions propagated from external
capabilities (embedding provider, content processor, origin access, vector
index). -/
inductive AppErr
  | validationError (msg : String)
  | resourceNotFound (msg : String)
  | resourceAlreadyExists (msg : String)
  | serviceError (msg : String)
deriving DecidableEq, Repr

instance {ε α : Type} [DecidableEq ε] [DecidableEq α] :
    DecidableEq (Except ε α) := fun a b =>
  match a, b with
  | .ok x, .ok y =>
    if h : x = y then .isTrue (by rw [h]) else .isFalse (fun hh => h (Except.ok.inj hh))
  | .ok _, .error _ => .isFalse (fun hh => Except.noConfusion hh)
  | .error _, .ok _ => .isFalse (fun hh => Except.noConfusion hh)
  | .error e, .error e' =>
    if h : e = e' then .isTrue (by rw [h]) else .isFalse (fun hh => h (Except.error.inj hh))

/-- `str(e)` for an embedded exception value. -/
def AppErr.message : AppErr → String
  | .validationError m => m
  | .resourceNotFound m => m
  | .resourceAlreadyExists m => m
  | .serviceError m => m

/-- A snippet as produced by `Processor.process` (src/services/processor.py)
and mutated by `LibraryService.add_tag`: the payload fields that
`Storage.save_snippets` reads, with the optional `"tag"` key
(`snippet.get("tag", DEFAULT_LIBRARY_TAG)`). -/
structure Snippet where
  title : String
  description : String
  source : String
  language : String
  code : String
  tokens : Nat
  vector : List Int
  tag : Option String := none
deriving DecidableEq, Repr

/-- The payload stored for one snippet point by `Storage.save_snippets`
(storage.py lines 126-144). -/
structure SnippetPayload where
  title : String
  description : String
  source : String
  language : String
  code : String
  tokens : Nat
  tag : String
deriving DecidableEq, Repr

/-- The catalog header payload written by `Storage.initialize`
(storage.py lines 78-96) and updated by `complete_library`, `complete`,
`cleanup_failed_library`, `add_tag_to_index` and the direct
`set_payload` calls in `LibraryService.rebuild`.  Optional fields are keys
that later `set_payload` calls may add to the initial payload. -/
structure LibHeader where
  id : String
  title : String
  description : String
  org : String
  project : String
  state : LibraryStatus
  tags : List String
  vector : List Int := []
  repoUrl : Option String := none
  accessToken : Option String := none
  branch : Option String := none
  gitTag : Option String := none
  lastCommitId : Option String := none
  totalTokens : Option Nat := none
  errorMessage : Option String := none
deriving DecidableEq, Repr

/-- The `git_info` dict returned by `GitLabAdapter.build_payload`
(gitlab.py lines 171-185); `org` and `project` repeat the header fields
of the same names, `tag` is the adapter's checkout tag and `last_commit_id`
the origin's current revision marker. -/
structure GitInfo where
  repoUrl : String
  branch : String
  tag : Option String := none
  accessToken : String
  lastCommitId : Option String := none
deriving DecidableEq, Repr

/-- Python truthiness of an optional string (`None` and `""` are falsy). -/
def optStrTruthy : Option String → Bool
  | none => false
  | some s => !s.isEmpty

/-- The vector store state: the `"libraries"` catalog collection (header
point per library, keyed by `library_id`) and the per-library partitions
(collection named `library_id`, holding snippet points).  Association
lists keep qdrant's stable point order. -/
structure Storage where
  headers : List (String × LibHeader)
  partitions : List (String × List SnippetPayload)
deriving DecidableEq, Repr

/-- Look up a point/collection by id in an association list. -/
def alistLookup {α : Type} (l : List (String × α)) (k : String) : Option α :=
  match l with
  | [] => none
  | (k', v) :: rest => if k' = k then some v else alistLookup rest k

/-- Update the value at a key when present; no-op when absent (qdrant
`set_payload` on a points selector that matches nothing).  Point ids are
unique in qdrant, so updating every matching entry is exact. -/
def alistUpdate {α : Type} (l : List (String × α)) (k : String) (f : α → α) :
    List (String × α) :=
  l.map (fun p => if p.1 = k then (p.1, f p.2) else p)

/-- Replace the value at a key, or append the pair when absent (qdrant
`upsert` by point id / `create_collection`). -/
def alistUpsert {α : Type} (l : List (String × α)) (k : String) (v : α) :
    List (String × α) :=
  if (alistLookup l k).isSome then alistUpdate l k (fun _ => v)
  else l ++ [(k, v)]

/-- Remove a key (qdrant `delete_collection`). -/
def alistErase {α : Type} (l : List (String × α)) (k : String) :
    List (String × α) :=
  l.filter (fun p => p.1 ≠ k)

/-- A ranked candidate document as returned by `Storage.query`:
snippet payload fields plus `doc.get("tokens", 0)` read by
`_apply_token_limit`.  The similarity score does not influence the token
filter, so it is not modelled. -/
structure Doc where
  title : String
  description : String
  source : String
  language : String
  code : String
  tokens : Nat
deriving DecidableEq, Repr

/-- src/schemas/internal.py: `TokenFilterResult`. -/
structure TokenFilterResult where
  documents : List Doc
  total_tokens : Nat
deriving DecidableEq, Repr

namespace LibraryService

/-- The loop of `LibraryService._apply_token_limit` (library.py lines
499-508): walk `documents` with running total `total`, append a document
while `total + doc_tokens <= token_limit`, and `break` at the first
overflow. -/
def applyTokenLimitLoop (token_limit : Nat) :
    List Doc → Nat → List Doc × Nat
  | [], total => ([], total)
  | doc :: rest, total =>
    if total + doc.tokens ≤ token_limit then
      let r := applyTokenLimitLoop token_limit rest (total + doc.tokens)
      (doc :: r.1, r.2)
    else
      ([], total)

/-- `LibraryService._apply_token_limit` (library.py lines 486-510). -/
def apply_token_limit (documents : List Doc) (token_limit : Nat) :
    TokenFilterResult :=
  let r := applyTokenLimitLoop token_limit documents 0
  { documents := r.1, total_tokens := r.2 }

end LibraryService

/-- Sum of the token counts of a document list. -/
def docTokenSum (docs : List Doc) : Nat := (docs.map Doc.tokens).sum

/-- A document carrying only a token count, for concrete test inputs. -/
def mkDoc (n : Nat) : Doc :=
  { title := "", description := "", source := "", language := "",
    code := "", tokens := n }

/-- Python's `<` on `str`: lexicographic comparison of the code-point
sequences.  (Computable form; `strLtChars_iff_lt` below identifies it with
the standard `<` on `String`.) -/
def strLtChars : List Char → List Char → Bool
  | [], [] => false
  | [], _ :: _ => true
  | _ :: _, [] => false
  | c :: cs, d :: ds =>
    if c < d then true else if d < c then false else strLtChars cs ds

/-- Python's `<=` on `str`. -/
def strLeB (a b : String) : Bool :=
  !strLtChars b.data a.data

/-- The comparison `list.sort(reverse=True)` orders by: `a` precedes `b`
when `b <= a` in the string order. -/
def pyGe (a b : String) : Prop := strLeB b a = true

instance : DecidableRel pyGe :=
  fun a b => inferInstanceAs (Decidable (strLeB b a = true))

/-- Python `list.sort(reverse=True)` on strings: stable sort by descending
lexicographic (code-point) order of the label strings.  The lists sorted
by the embedded code are duplicate-free, so stability is irrelevant and an
insertion sort is an exact model. -/
def pySortReverse (l : List String) : List String :=
  l.insertionSort pyGe

/-- `sum(s.get("tokens", 0) for s in snippets)` (library.py line 89). -/
def snippetTokenSum (snippets : List Snippet) : Nat :=
  (snippets.map Snippet.tokens).sum

/-- Sum of the token counts of the snippet points of one partition. -/
def payloadTokenSum (pts : List SnippetPayload) : Nat :=
  (pts.map SnippetPayload.tokens).sum

/-- The payload `Storage.save_snippets` builds for one snippet
(storage.py lines 126-142): copies the content fields and defaults the
tag with `snippet.get("tag", DEFAULT_LIBRARY_TAG)`. -/
def Snippet.toPayload (sn : Snippet) : SnippetPayload :=
  { title := sn.title, description := sn.description, source := sn.source,
    language := sn.language, code := sn.code, tokens := sn.tokens,
    tag := sn.tag.getD DEFAULT_LIBRARY_TAG }

/-- `GitLabAdapter.name`: `f"/{self.org}/{self.project}"`. -/
def providerName (org project : String) : String :=
  "/" ++ org ++ "/" ++ project

/-- The `all([library.repo_url, library.access_token, library.org,
library.project])` guard of `GitLabAdapter.from_library` (gitlab.py lines
272-275); when it is false `from_library` raises
`ValidationError("Missing required repository information")`. -/
def fromLibraryOk (lib : LibHeader) : Bool :=
  optStrTruthy lib.repoUrl && optStrTruthy lib.accessToken &&
    !lib.org.isEmpty && !lib.project.isEmpty

namespace Storage

/-- `qdrant.collection_exists(library_id)` restricted to per-library
partitions; the catalog collection `"libraries"` is held separately in the
model and its fixed name can never equal a (32-hex-digit) library id. -/
def collection_exists (s : Storage) (collection_name : String) : Bool :=
  (alistLookup s.partitions collection_name).isSome

/-- `Storage.initialize` (storage.py lines 53-104): upsert the header point
into the catalog with `state=processing` and an empty tag list, merging the
optional `git_info` keys, then create the per-library partition.
`last_update_date` is wall-clock text and is not modelled.  (Named
`initLibrary` here because the source's name `initialize` is a reserved
word in Lean.) -/
def initLibrary (s : Storage) (library_id title description : String)
    (library_vector : List Int) (org project : String)
    (git_info : Option GitInfo) : Storage :=
  let base : LibHeader :=
    { id := library_id, title := title, description := description,
      org := org, project := project, state := .processing, tags := [],
      vector := library_vector }
  let header : LibHeader :=
    match git_info with
    | none => base
    | some g =>
      { base with
        repoUrl := some g.repoUrl
        branch := some g.branch
        gitTag := g.tag
        accessToken := some g.accessToken
        lastCommitId := g.lastCommitId }
  { headers := alistUpsert s.headers library_id header,
    partitions := alistUpsert s.partitions library_id [] }

/-- `Storage.save_snippets` (storage.py lines 106-149): no-op on an empty
snippet list, otherwise upsert one point per snippet (fresh uuid ids, so
an upsert appends) into the library's partition. -/
def save_snippets (s : Storage) (snippets : List Snippet)
    (library_id : String) : Storage :=
  if snippets.isEmpty then s
  else
    { s with
      partitions := alistUpdate s.partitions library_id
        (fun pts => pts ++ snippets.map Snippet.toPayload) }

/-- `Storage.complete_library` (storage.py lines 405-427): set
`state=finalized` and `total_tokens` on the header point. -/
def complete_library (s : Storage) (library_id : String)
    (total_tokens : Nat) : Storage :=
  { s with
    headers := alistUpdate s.headers library_id
      (fun h => { h with state := .finalized,
                         totalTokens := some total_tokens }) }

/-- `Storage.complete` (storage.py lines 151-180): like `complete_library`
but also records `last_commit_id` when the provider reports a truthy one. -/
def complete (s : Storage) (provider_id : String)
    (commit_id : Option String) (total_tokens : Nat) : Storage :=
  { s with
    headers := alistUpdate s.headers provider_id
      (fun h =>
        let h1 := { h with state := .finalized,
                           totalTokens := some total_tokens }
        match commit_id with
        | some c => if c.isEmpty then h1 else { h1 with lastCommitId := some c }
        | none => h1) }

/-- `Storage.cleanup_failed_library` (storage.py lines 429-457): delete the
partition (exceptions suppressed when it does not exist) and set
`state=failed` plus `error_message` on the header point (a selector that
matches no point is a no-op); the header point itself is never deleted. -/
def cleanup_failed_library (s : Storage) (library_id : String)
    (error_message : String) : Storage :=
  { headers := alistUpdate s.headers library_id
      (fun h => { h with state := .failed,
                         errorMessage := some error_message }),
    partitions := alistErase s.partitions library_id }

/-- `Storage.remove_tag` (storage.py lines 312-336): delete from the
library's partition exactly the points whose payload `tag` matches. -/
def remove_tag (s : Storage) (library_id tag : String) : Storage :=
  { s with
    partitions := alistUpdate s.partitions library_id
      (fun pts => pts.filter (fun p => p.tag ≠ tag)) }

/-- `Storage.get_by_id` (storage.py lines 289-310). -/
def get_by_id (s : Storage) (library_id : String) :
    Except AppErr LibHeader :=
  match alistLookup s.headers library_id with
  | none => .error (.resourceNotFound "Library not found")
  | some h => .ok h

/-- `Storage.add_tag_to_index` (storage.py lines 366-403): retrieve the
header; when it exists and the tag is not yet listed, append the tag,
`sort(reverse=True)` the whole list, and write it back. -/
def add_tag_to_index (s : Storage) (library_id tag : String) : Storage :=
  match alistLookup s.headers library_id with
  | none => s
  | some h =>
    if tag ∈ h.tags then s
    else
      { s with
        headers := alistUpdate s.headers library_id
          (fun h' => { h' with tags := pySortReverse (h.tags ++ [tag]) }) }

/-- The catalog half of `Storage.search` (storage.py lines 248-287),
with qdrant's two read primitives abstracted: `scroll` pages the catalog
points in their stable stored order, `query_points` (abstracted as `rank`)
returns the full similarity ranking for a query vector, of which the top
`limit` are taken.  Only the `none` branch ever reads `offset`. -/
def search (s : Storage) (rank : List Int → List LibHeader)
    (query_vector : Option (List Int)) (limit offset : Nat) :
    List LibHeader :=
  match query_vector with
  | none => ((s.headers.map Prod.snd).drop offset).take limit
  | some v => (rank v).take limit

end Storage

namespace LibraryService

/-- `LibraryService.exists` (library.py lines 234-243): existence is
decided solely by `qdrant.collection_exists(library_id)` — the presence of
the per-library partition, not of the catalog header. -/
def existsLib (s : Storage) (library_id : String) : Bool :=
  Storage.collection_exists s library_id

/-- `LibraryService.is_processing` (library.py lines 245-258). -/
def is_processing (s : Storage) (library_id : String) : Bool :=
  match Storage.get_by_id s library_id with
  | .ok lib => lib.state = LibraryStatus.processing
  | .error _ => false

/-- `f"{str(e)}\n\nTraceback:\n{error_traceback}"` — the diagnostic
persisted by `create`'s recovery block (library.py lines 98-99). -/
def formatError (e : AppErr) (tb : String) : String :=
  e.message ++ "\n\nTraceback:\n" ++ tb

/-- Outcomes of the external calls awaited inside `LibraryService.create`,
injected so that each failure point of the pipeline can be exercised:
`embedding` is `ai.embedding(f"{title} {description}")`, `processed` is
`processor.process(files)`, `saveError`/`completeError` inject a raised
exception from the corresponding storage call, and `tb` is the
`traceback.format_exc()` text captured by the recovery block. -/
structure CreateFaults where
  embedding : Except AppErr (List Int)
  processed : Except AppErr (List Snippet)
  saveError : Option AppErr := none
  completeError : Option AppErr := none
  tb : String := ""
deriving DecidableEq, Repr

/-- The `try` body of `LibraryService.create` (library.py lines 67-95),
threading the storage state and returning, on an exception, the raised
error together with the state at the point of failure. -/
def createBody (f : CreateFaults) (s : Storage)
    (library_id title description org project : String) :
    Except (AppErr × Storage) Storage :=
  match f.embedding with
  | .error e => .error (e, s)
  | .ok vec =>
    let s1 := Storage.initLibrary s library_id title description vec
      org project none
    match f.processed with
    | .error e => .error (e, s1)
    | .ok snippets =>
      match f.saveError with
      | some e => .error (e, s1)
      | none =>
        let s2 := Storage.save_snippets s1 snippets library_id
        match f.completeError with
        | some e => .error (e, s2)
        | none =>
          .ok (Storage.complete_library s2 library_id
            (snippetTokenSum snippets))

/-- `LibraryService.create` (library.py lines 41-103): run the body; on any
exception run `storage.cleanup_failed_library` with the formatted
diagnostic and re-raise. -/
def create (f : CreateFaults) (s : Storage)
    (library_id title description org project : String) :
    Except AppErr Unit × Storage :=
  match createBody f s library_id title description org project with
  | .ok s' => (.ok (), s')
  | .error (e, s') =>
    (.error e,
      Storage.cleanup_failed_library s' library_id (formatError e f.tb))

/-- Outcomes of the external calls awaited inside `create_from_git`:
`embedding` is the library-level embedding, `gitInfo` is
`provider.build_payload()`, `processed` is `provider.collect_files()` plus
`processor.process(files)`, `commitId` is the
`provider.get_latest_commit_id()` awaited inside `storage.complete`. -/
structure CreateGitFaults where
  embedding : Except AppErr (List Int)
  gitInfo : Except AppErr GitInfo
  processed : Except AppErr (List Snippet)
  commitId : Option String := none
  saveError : Option AppErr := none
  completeError : Option AppErr := none
  tb : String := ""
deriving DecidableEq, Repr

/-- The `try` body of `LibraryService.create_from_git` (library.py lines
119-154). -/
def createFromGitBody (f : CreateGitFaults) (s : Storage)
    (provider_id title description org project : String) :
    Except (AppErr × Storage) Storage :=
  match f.embedding with
  | .error e => .error (e, s)
  | .ok vec =>
    match f.gitInfo with
    | .error e => .error (e, s)
    | .ok g =>
      let s1 := Storage.initLibrary s provider_id title description vec
        org project (some g)
      match f.processed with
      | .error e => .error (e, s1)
      | .ok snippets =>
        match f.saveError with
        | some e => .error (e, s1)
        | none =>
          let s2 := Storage.save_snippets s1 snippets provider_id
          match f.completeError with
          | some e => .error (e, s2)
          | none =>
            .ok (Storage.complete s2 provider_id f.commitId
              (snippetTokenSum snippets))

/-- `LibraryService.create_from_git` (library.py lines 105-162): like
`create` but initialized with the provider's git payload and finalized
through `storage.complete`. -/
def create_from_git (f : CreateGitFaults) (s : Storage)
    (provider_id title description org project : String) :
    Except AppErr Unit × Storage :=
  match createFromGitBody f s provider_id title description org project with
  | .ok s' => (.ok (), s')
  | .error (e, s') =>
    (.error e,
      Storage.cleanup_failed_library s' provider_id (formatError e f.tb))

/-- `LibraryService.precheck_add_tag` (library.py lines 301-335).
`access_ok` is `provider.validate_access()` and `available_tags` is
`provider.get_tags()`, both external origin calls. -/
def precheck_add_tag (s : Storage) (library_id tag : String)
    (access_ok : Bool) (available_tags : List String) :
    Except AppErr Unit :=
  match Storage.get_by_id s library_id with
  | .error e => .error e
  | .ok lib =>
    if tag ∈ lib.tags then
      .error (.validationError ("Tag " ++ tag ++ " already exists"))
    else if is_processing s library_id then
      .error (.validationError "Library is currently being processed")
    else if !fromLibraryOk lib then
      .error (.validationError "Missing required repository information")
    else if !access_ok then
      .error (.validationError
        ("Cannot access repository '" ++ providerName lib.org lib.project ++ "'"))
    else if tag ∉ available_tags then
      .error (.validationError
        ("Tag '" ++ tag ++ "' does not exist in repository '" ++
          providerName lib.org lib.project ++ "'"))
    else
      .ok ()

/-- Outcomes of the external calls awaited inside `add_tag`:
`processed` is `provider.collect_files()` followed by
`processor.process(files)`; `saveError` injects a raised storage
exception from `save_snippets` (qdrant upsert); `indexError` injects a
raised storage exception from `add_tag_to_index` (storage.py lines
366-403, whose `try`/`except` logs and re-raises) — that call runs only
after `save_snippets` succeeded, and its qdrant retrieve/`set_payload`
either fails without effect or succeeds, so an injected failure there
leaves the header untouched while the partition already holds the new
snippets. -/
structure AddTagFaults where
  processed : Except AppErr (List Snippet)
  saveError : Option AppErr := none
  indexError : Option AppErr := none
deriving DecidableEq, Repr

/-- `LibraryService.add_tag` (library.py lines 337-367).  Note: the body
has no `try`/`except` — any exception propagates without touching the
header. -/
def add_tag (f : AddTagFaults) (s : Storage) (library_id tag : String) :
    Except AppErr Unit × Storage :=
  match Storage.get_by_id s library_id with
  | .error e => (.error e, s)
  | .ok lib =>
    if !fromLibraryOk lib then
      (.error (.validationError "Missing required repository information"), s)
    else
      match f.processed with
      | .error e => (.error e, s)
      | .ok snippets =>
        let tagged := snippets.map (fun sn => { sn with tag := some tag })
        match f.saveError with
        | some e => (.error e, s)
        | none =>
          let s1 := Storage.save_snippets s tagged library_id
          match f.indexError with
          | some e => (.error e, s1)
          | none => (.ok (), Storage.add_tag_to_index s1 library_id tag)

/-- `LibraryService.precheck_rebuild` (library.py lines 369-405). -/
def precheck_rebuild (s : Storage) (library_id : String)
    (access_ok : Bool) (current_commit : Option String) :
    Except AppErr Unit :=
  match Storage.get_by_id s library_id with
  | .error e => .error e
  | .ok lib =>
    if !optStrTruthy lib.repoUrl then
      .error (.validationError
        "Cannot rebuild: This library was not created from a Git repository")
    else if is_processing s library_id then
      .error (.validationError "Library is currently being processed")
    else if !fromLibraryOk lib then
      .error (.validationError "Missing required repository information")
    else if !access_ok then
      .error (.validationError
        ("Cannot access repository '" ++ providerName lib.org lib.project ++ "'"))
    else if current_commit = lib.lastCommitId then
      .error (.validationError
        "No changes detected since last build. Rebuild not needed.")
    else
      .ok ()

/-- Outcomes of the external calls awaited inside `rebuild`:
`processed` is `provider.collect_files()` plus `processor.process`,
`commitId` is `provider.get_latest_commit_id()` awaited inside
`storage.complete`, `saveError` injects a raised storage exception. -/
structure RebuildFaults where
  processed : Except AppErr (List Snippet)
  commitId : Option String := none
  saveError : Option AppErr := none
deriving DecidableEq, Repr

/-- Rebuild's eager first effect (library.py lines 423-428):
`set_payload({"state": PROCESSING})` on the header point. -/
def set_state_processing (s : Storage) (library_id : String) : Storage :=
  { s with
    headers := alistUpdate s.headers library_id
      (fun h => { h with state := .processing }) }

/-- Rebuild's `except` branch (library.py lines 442-454):
`set_payload({"state": FAILED, "error_message": str(e), ...})`. -/
def set_state_failed (s : Storage) (library_id : String) (e : AppErr) :
    Storage :=
  { s with
    headers := alistUpdate s.headers library_id
      (fun h => { h with state := .failed,
                         errorMessage := some e.message }) }

/-- The `try` body of `rebuild` after the eager PROCESSING mark
(library.py lines 430-440): clear the default tag's data, re-create the
provider from the header, and run `_do_processing` (library.py lines
456-484), whose snippets carry no `"tag"` key and are therefore stored
under the default tag. -/
def rebuildCore (f : RebuildFaults) (s : Storage) (library_id : String) :
    Except (AppErr × Storage) Storage :=
  let s1 := Storage.remove_tag s library_id DEFAULT_LIBRARY_TAG
  match Storage.get_by_id s1 library_id with
  | .error e => .error (e, s1)
  | .ok lib =>
    if !fromLibraryOk lib then
      .error (.validationError "Missing required repository information", s1)
    else
      match f.processed with
      | .error e => .error (e, s1)
      | .ok snippets =>
        match f.saveError with
        | some e => .error (e, s1)
        | none =>
          let s2 := Storage.save_snippets s1 snippets library_id
          .ok (Storage.complete s2 library_id f.commitId
            (snippetTokenSum snippets))

/-- `LibraryService.rebuild` (library.py lines 407-454): mark the header
PROCESSING first, run the body, and on any exception mark the header
FAILED with `str(e)` and re-raise. -/
def rebuild (f : RebuildFaults) (s : Storage) (library_id : String) :
    Except AppErr Unit × Storage :=
  match rebuildCore f (set_state_processing s library_id) library_id with
  | .ok s' => (.ok (), s')
  | .error (e, s') => (.error e, set_state_failed s' library_id e)

/-- `LibraryService.search` (library.py lines 512-539): embed the query
text only when it is truthy (`if query:` — `None` and `""` select the
listing mode), delegate to `Storage.search`, and degrade to an empty
result list when the embedding call raises.  `embedded` is the outcome of
`ai.embedding(query)`. -/
def search (s : Storage) (rank : List Int → List LibHeader)
    (embedded : Except AppErr (List Int)) (query : Option String)
    (limit offset : Nat) : List LibHeader :=
  match query with
  | none => Storage.search s rank none limit offset
  | some q =>
    if q.isEmpty then Storage.search s rank none limit offset
    else
      match embedded with
      | .error _ => []
      | .ok v => Storage.search s rank (some v) limit offset

end LibraryService

/-- The `POST /{org}/{project}/tags/{tag}` handler (api/v1/library.py
lines 264-297): run `precheck_add_tag` synchronously; only when it passes
is `add_tag` scheduled as a background task (whose effects land after the
response). -/
def addTagEndpoint (f : LibraryService.AddTagFaults) (s : Storage)
    (library_id tag : String) (access_ok : Bool)
    (available_tags : List String) : Except AppErr Unit × Storage :=
  match LibraryService.precheck_add_tag s library_id tag access_ok
      available_tags with
  | .error e => (.error e, s)
  | .ok _ => (.ok (), (LibraryService.add_tag f s library_id tag).2)

/-- The `POST /{org}/{project}/rebuild` handler (api/v1/library.py lines
231-261): run `precheck_rebuild` synchronously; only when it passes is
`rebuild` scheduled as a background task. -/
def rebuildEndpoint (f : LibraryService.RebuildFaults) (s : Storage)
    (library_id : String) (access_ok : Bool)
    (current_commit : Option String) : Except AppErr Unit × Storage :=
  match LibraryService.precheck_rebuild s library_id access_ok
      current_commit with
  | .error e => (.error e, s)
  | .ok _ => (.ok (), (LibraryService.rebuild f s library_id).2)

/-- The `POST /` repository-create handler (api/v1/library.py lines
73-131): reject when the origin is unreachable, reject with
`ResourceAlreadyExistsError` when `library_service.exists(provider.id)`,
otherwise schedule `create_from_git` as a background task. -/
def createGitEndpoint (s : Storage) (provider_id provider_name : String)
    (access_ok : Bool) : Except AppErr Unit :=
  if !access_ok then
    .error (.validationError
      ("Cannot access repository '" ++ provider_name ++ "'"))
  else if LibraryService.existsLib s provider_id then
    .error (.resourceAlreadyExists
      ("Library '" ++ provider_name ++ "' already exists"))
  else
    .ok ()

/-- The `POST /{org}/{project}/content` handler (api/v1/library.py lines
136-201): reject with `ResourceAlreadyExistsError` when
`library_service.exists(library_id)`, otherwise schedule `create` as a
background task. -/
def createFromContentEndpoint (f : LibraryService.CreateFaults)
    (s : Storage) (library_id title description org project : String) :
    Except AppErr Unit × Storage :=
  if LibraryService.existsLib s library_id then
    (.error (.resourceAlreadyExists "Library already exists"), s)
  else
    (.ok (),
      (LibraryService.create f s library_id title description org
        project).2)

/-! Concrete fixtures used by the executable instances below: a
repository-backed library created by a successful `create_from_git`, a tag
added to it by a successful `add_tag`, and a content library whose
`create` fails at the processing step. -/

/-- The empty vector store. -/
def stEmpty : Storage := { headers := [], partitions := [] }

/-- A processed snippet worth 5 tokens (no `"tag"` key, as produced by the
content processor). -/
def snA : Snippet :=
  { title := "a", description := "da", source := "f.md#snippet_1",
    language := "python", code := "pass", tokens := 5, vector := [] }

/-- A processed snippet worth 7 tokens. -/
def snB : Snippet :=
  { title := "b", description := "db", source := "g.md#snippet_1",
    language := "python", code := "pass", tokens := 7, vector := [] }

/-- Git payload of the fixture repository. -/
def gitInfoA : GitInfo :=
  { repoUrl := "https://git.example.com/o/p", branch := "main",
    accessToken := "tok", lastCommitId := some "c0" }

/-- External-call outcomes for a fully successful `create_from_git`. -/
def fGitOk : LibraryService.CreateGitFaults :=
  { embedding := .ok [], gitInfo := .ok gitInfoA,
    processed := .ok [snA], commitId := some "c0" }

/-- State after a successful `create_from_git` of library `lib1`. -/
def stGit1 : Storage :=
  (LibraryService.create_from_git fGitOk stEmpty "lib1" "t" "d" "o" "p").2

/-- External-call outcomes for a successful `add_tag` producing one
7-token snippet. -/
def fAddOk : LibraryService.AddTagFaults := { processed := .ok [snB] }

/-- State after a successful `add_tag "v1"` on `stGit1`. -/
def stGit2 : Storage :=
  (LibraryService.add_tag fAddOk stGit1 "lib1" "v1").2

/-- External-call outcomes for an `add_tag` whose processing step raises. -/
def fAddBoom : LibraryService.AddTagFaults :=
  { processed := .error (.serviceError "boom") }

/-- External-call outcomes for an `add_tag` whose tag-index update raises
after the snippets were already stored. -/
def fAddIdxBoom : LibraryService.AddTagFaults :=
  { processed := .ok [snB], indexError := some (.serviceError "idx") }

/-- External-call outcomes for a `create` whose content-processing step
raises after the header was initialized. -/
def fCreateBoom : LibraryService.CreateFaults :=
  { embedding := .ok [], processed := .error (.serviceError "boom"),
    tb := "tb" }

/-- State after the failed `create` of content library `lib2`. -/
def stFail : Storage :=
  (LibraryService.create fCreateBoom stEmpty "lib2" "t" "d" "o" "p").2

/-- A catalog of four distinct headers for the pagination fixture. -/
def mkCatalogHeader (n : String) : LibHeader :=
  { id := n, title := n, description := "", org := "o", project := n,
    state := .finalized, tags := [] }

/-- A store whose catalog lists four libraries, for the search fixture. -/
def stCatalog : Storage :=
  { headers := [("a", mkCatalogHeader "a"), ("b", mkCatalogHeader "b"),
                ("c", mkCatalogHeader "c"), ("d", mkCatalogHeader "d")],
    partitions := [] }

theorem applyTokenLimitLoop_spec (limit : Nat) :
    ∀ (docs : List Doc) (total : Nat),
      (LibraryService.applyTokenLimitLoop limit docs total).1 <+: docs ∧
      (LibraryService.applyTokenLimitLoop limit docs total).2 =
        total + docTokenSum (LibraryService.applyTokenLimitLoop limit docs total).1 ∧
      (total ≤ limit → (LibraryService.applyTokenLimitLoop limit docs total).2 ≤ limit) ∧
      ((LibraryService.applyTokenLimitLoop limit docs total).1 = docs ∨
        ∃ d rest,
          docs = (LibraryService.applyTokenLimitLoop limit docs total).1 ++ d :: rest ∧
          limit < (LibraryService.applyTokenLimitLoop limit docs total).2 + d.tokens) := by
  intro docs
  induction docs with
  | nil =>
    intro total
    exact ⟨List.prefix_refl _, by simp [LibraryService.applyTokenLimitLoop, docTokenSum],
      fun h => by simpa [LibraryService.applyTokenLimitLoop] using h,
      Or.inl rfl⟩
  | cons doc rest ih =>
    intro total
    by_cases h : total + doc.tokens ≤ limit
    · have hrec := ih (total + doc.tokens)
      constructor
      · simp only [LibraryService.applyTokenLimitLoop, if_pos h]
        obtain ⟨t, ht⟩ := hrec.1
        exact ⟨t, by simp [ht]⟩
      constructor
      · simp only [LibraryService.applyTokenLimitLoop, if_pos h]
        have := hrec.2.1
        simp [docTokenSum] at this ⊢
        omega
      constructor
      · intro _
        simp only [LibraryService.applyTokenLimitLoop, if_pos h]
        exact hrec.2.2.1 h
      · rcases hrec.2.2.2 with hall | ⟨d, rest', heq, hover⟩
        · left
          simp only [LibraryService.applyTokenLimitLoop, if_pos h, hall]
        · right
          refine ⟨d, rest', ?_, ?_⟩
          · simp only [LibraryService.applyTokenLimitLoop, if_pos h]
            simpa using congrArg (doc :: ·) heq
          · simpa only [LibraryService.applyTokenLimitLoop, if_pos h] using hover
    · constructor
      · simp only [LibraryService.applyTokenLimitLoop, if_neg h]
        exact List.nil_prefix
      constructor
      · simp [LibraryService.applyTokenLimitLoop, if_neg h, docTokenSum]
      constructor
      · intro htot
        simpa [LibraryService.applyTokenLimitLoop, if_neg h] using htot
      · right
        refine ⟨doc, rest, ?_, ?_⟩
        · simp [LibraryService.applyTokenLimitLoop, if_neg h]
        · simp only [LibraryService.applyTokenLimitLoop, if_neg h]
          omega

/-- C1: `query` applies break-on-first-overflow token budgeting.  The
filtered list is a prefix of the ranked candidates whose running total
stays within the budget; the walk stops at the first candidate that would
overflow (when the result is a proper prefix, the very next candidate
overflows the running total), excluding every later candidate.  In
particular, for candidate token counts `[4000, 3000, 5000, 1000]` and
budget `8000` exactly the first two are returned. -/
theorem query_break_on_first_overflow :
    (∀ (docs : List Doc) (limit : Nat),
      (LibraryService.apply_token_limit docs limit).documents <+: docs ∧
      (LibraryService.apply_token_limit docs limit).total_tokens =
        docTokenSum (LibraryService.apply_token_limit docs limit).documents ∧
      (LibraryService.apply_token_limit docs limit).total_tokens ≤ limit ∧
      ((LibraryService.apply_token_limit docs limit).documents = docs ∨
        ∃ d rest,
          docs = (LibraryService.apply_token_limit docs limit).documents ++ d :: rest ∧
          limit < (LibraryService.apply_token_limit docs limit).total_tokens + d.tokens)) ∧
    LibraryService.apply_token_limit
        [mkDoc 4000, mkDoc 3000, mkDoc 5000, mkDoc 1000] 8000 =
      { documents := [mkDoc 4000, mkDoc 3000], total_tokens := 7000 } := by
  constructor
  · intro docs limit
    have h := applyTokenLimitLoop_spec limit docs 0
    refine ⟨h.1, ?_, h.2.2.1 (Nat.zero_le _), ?_⟩
    · simpa [LibraryService.apply_token_limit] using h.2.1
    · simpa [LibraryService.apply_token_limit] using h.2.2.2
  · rfl

theorem strLtChars_iff_lt :
    ∀ as bs : List Char, strLtChars as bs = true ↔ List.lt as bs
  | [], [] => by
    constructor
    · intro h
      simp [strLtChars] at h
    · intro h
      cases h
  | [], b :: bs => by
    constructor
    · intro _
      exact List.lt.nil b bs
    · intro _
      rfl
  | a :: as, [] => by
    constructor
    · intro h
      simp [strLtChars] at h
    · intro h
      cases h
  | a :: as, b :: bs => by
    simp only [strLtChars]
    by_cases h1 : a < b
    · simp only [if_pos h1]
      constructor
      · intro _
        exact List.lt.head _ _ h1
      · intro _
        trivial
    · by_cases h2 : b < a
      · simp only [if_neg h1, if_pos h2]
        constructor
        · intro h
          cases h
        · intro h
          cases h with
          | head _ _ hab => exact absurd hab h1
          | tail _ hba _ => exact absurd h2 hba
      · simp only [if_neg h1, if_neg h2]
        rw [strLtChars_iff_lt as bs]
        constructor
        · intro h
          exact List.lt.tail h1 h2 h
        · intro h
          cases h with
          | head _ _ hab => exact absurd hab h1
          | tail _ _ htl => exact htl

theorem strLeB_iff_le (a b : String) : strLeB a b = true ↔ a ≤ b := by
  have hlt : strLtChars b.data a.data = true ↔ b < a := by
    rw [strLtChars_iff_lt, List.lt_iff_lex_lt]
    exact (@String.lt_iff_toList_lt b a).symm
  constructor
  · intro h hba
    have : strLtChars b.data a.data = true := hlt.mpr hba
    simp [strLeB, this] at h
  · intro h
    have : strLtChars b.data a.data = false := by
      by_contra hne
      exact h (hlt.mp (by revert hne; cases strLtChars b.data a.data <;> simp))
    simp [strLeB, this]

theorem pyGe_iff (a b : String) : pyGe a b ↔ b ≤ a :=
  strLeB_iff_le b a

theorem pyGe_total (a b : String) : pyGe a b ∨ pyGe b a := by
  rw [pyGe_iff, pyGe_iff]
  exact le_total b a

theorem pyGe_trans {a b c : String} (h1 : pyGe a b) (h2 : pyGe b c) :
    pyGe a c := by
  rw [pyGe_iff] at h1 h2 ⊢
  exact le_trans h2 h1

theorem alistLookup_cons {α : Type} (k' : String) (v : α)
    (rest : List (String × α)) (k : String) :
    alistLookup ((k', v) :: rest) k =
      if k' = k then some v else alistLookup rest k := rfl

theorem alistUpdate_cons {α : Type} (k' : String) (v : α)
    (rest : List (String × α)) (k : String) (f : α → α) :
    alistUpdate ((k', v) :: rest) k f =
      (if k' = k then (k', f v) else (k', v)) :: alistUpdate rest k f := by
  by_cases h : k' = k <;> simp [alistUpdate, h]

theorem alistLookup_update_self {α : Type} (l : List (String × α))
    (k : String) (f : α → α) :
    alistLookup (alistUpdate l k f) k = (alistLookup l k).map f := by
  induction l with
  | nil => rfl
  | cons p rest ih =>
    obtain ⟨k', v⟩ := p
    rw [alistUpdate_cons]
    by_cases h : k' = k
    · rw [if_pos h]
      subst h
      rw [alistLookup_cons, alistLookup_cons, if_pos rfl, if_pos rfl]
      rfl
    · rw [if_neg h, alistLookup_cons, alistLookup_cons, if_neg h, if_neg h, ih]

theorem alistLookup_erase_self {α : Type} (l : List (String × α))
    (k : String) : alistLookup (alistErase l k) k = none := by
  induction l with
  | nil => rfl
  | cons p rest ih =>
    obtain ⟨k', v⟩ := p
    by_cases h : k' = k
    · simp only [alistErase] at ih ⊢
      simpa [List.filter, h] using ih
    · simp only [alistErase] at ih ⊢
      simpa [List.filter, h, alistLookup] using ih

theorem alistLookup_upsert_self {α : Type} (l : List (String × α))
    (k : String) (v : α) : alistLookup (alistUpsert l k v) k = some v := by
  unfold alistUpsert
  by_cases h : (alistLookup l k).isSome
  · rw [if_pos h, alistLookup_update_self]
    obtain ⟨w, hw⟩ := Option.isSome_iff_exists.mp h
    rw [hw]
    rfl
  · rw [if_neg h]
    have hnone : alistLookup l k = none := by
      revert h
      cases alistLookup l k <;> simp
    clear h
    induction l with
    | nil => simp [alistLookup]
    | cons p rest ih =>
      by_cases hp : p.1 = k
      · simp [alistLookup, hp] at hnone
      · simp only [alistLookup, if_neg hp] at hnone
        simpa [alistLookup, hp] using ih hnone

theorem pySortReverse_sorted (l : List String) :
    List.Sorted (fun a b : String => b ≤ a) (pySortReverse l) := by
  haveI : IsTotal String pyGe := ⟨pyGe_total⟩
  haveI : IsTrans String pyGe := ⟨fun _ _ _ => pyGe_trans⟩
  exact (List.sorted_insertionSort pyGe l).imp (fun h => (pyGe_iff _ _).mp h)

theorem pySortReverse_perm (l : List String) :
    List.Perm (pySortReverse l) l :=
  List.perm_insertionSort pyGe l

theorem add_tag_to_index_of_not_mem (s : Storage) (library_id tag : String)
    (h0 : LibHeader) (hlook : alistLookup s.headers library_id = some h0)
    (hnot : tag ∉ h0.tags) :
    alistLookup (Storage.add_tag_to_index s library_id tag).headers
        library_id =
      some { h0 with tags := pySortReverse (h0.tags ++ [tag]) } := by
  unfold Storage.add_tag_to_index
  rw [hlook]
  simp only [if_neg hnot]
  rw [alistLookup_update_self, hlook]
  rfl

/-- C6: on every append to a library's tag list, `add_tag_to_index`
re-sorts the whole list in descending lexicographic order of the label
string; in particular appending `"1.0"`, then `"2.0"`, then `"1.5"` to an
empty tag list yields `["2.0", "1.5", "1.0"]`. -/
theorem add_tag_reorders_descending :
    (∀ (s : Storage) (library_id tag : String) (h0 : LibHeader),
      alistLookup s.headers library_id = some h0 →
      tag ∉ h0.tags →
      alistLookup (Storage.add_tag_to_index s library_id tag).headers
          library_id =
        some { h0 with tags := pySortReverse (h0.tags ++ [tag]) } ∧
      List.Sorted (fun a b : String => b ≤ a)
        (pySortReverse (h0.tags ++ [tag]))) ∧
    (alistLookup
      (Storage.add_tag_to_index
        (Storage.add_tag_to_index
          (Storage.add_tag_to_index stGit1 "lib1" "1.0")
          "lib1" "2.0")
        "lib1" "1.5").headers "lib1").map LibHeader.tags =
      some ["2.0", "1.5", "1.0"] := by
  constructor
  · intro s library_id tag h0 hlook hnot
    exact ⟨add_tag_to_index_of_not_mem s library_id tag h0 hlook hnot,
      pySortReverse_sorted _⟩
  · decide

/-- C6 witness: the general clause applied at a concrete store. -/
theorem add_tag_reorders_descending_witness :
    alistLookup
        (Storage.add_tag_to_index stGit1 "lib1" "latest2").headers "lib1" =
      some { id := "lib1", title := "t", description := "d", org := "o",
             project := "p", state := .finalized, tags := ["latest2"],
             repoUrl := some "https://git.example.com/o/p",
             accessToken := some "tok", branch := some "main",
             lastCommitId := some "c0", totalTokens := some 5 } := by
  have h := (add_tag_reorders_descending.1 stGit1 "lib1" "latest2"
    { id := "lib1", title := "t", description := "d", org := "o",
      project := "p", state := .finalized, tags := [],
      repoUrl := some "https://git.example.com/o/p",
      accessToken := some "tok", branch := some "main",
      lastCommitId := some "c0", totalTokens := some 5 }
    (by decide) (by decide)).1
  simpa using h

/-- C5: appending an already-present tag fails at the caller's
precondition: `precheck_add_tag` raises `ValidationError` before the
mutation is scheduled, so the endpoint leaves the store untouched; and the
tag list never acquires a duplicate label — `add_tag_to_index` preserves
duplicate-freeness of the list. -/
theorem duplicate_tag_rejected :
    (∀ (s : Storage) (library_id tag : String) (access_ok : Bool)
        (available_tags : List String) (lib : LibHeader),
      Storage.get_by_id s library_id = .ok lib →
      tag ∈ lib.tags →
      LibraryService.precheck_add_tag s library_id tag access_ok
          available_tags =
        .error (.validationError ("Tag " ++ tag ++ " already exists"))) ∧
    (∀ (f : LibraryService.AddTagFaults) (s : Storage)
        (library_id tag : String) (access_ok : Bool)
        (available_tags : List String) (lib : LibHeader),
      Storage.get_by_id s library_id = .ok lib →
      tag ∈ lib.tags →
      addTagEndpoint f s library_id tag access_ok available_tags =
        (.error (.validationError ("Tag " ++ tag ++ " already exists")), s)) ∧
    (∀ (s : Storage) (library_id tag : String) (h0 h1 : LibHeader),
      alistLookup s.headers library_id = some h0 →
      h0.tags.Nodup →
      alistLookup (Storage.add_tag_to_index s library_id tag).headers
          library_id = some h1 →
      h1.tags.Nodup) := by
  have hpre : ∀ (s : Storage) (library_id tag : String) (access_ok : Bool)
      (available_tags : List String) (lib : LibHeader),
      Storage.get_by_id s library_id = .ok lib →
      tag ∈ lib.tags →
      LibraryService.precheck_add_tag s library_id tag access_ok
          available_tags =
        .error (.validationError ("Tag " ++ tag ++ " already exists")) := by
    intro s library_id tag access_ok available_tags lib hget hmem
    unfold LibraryService.precheck_add_tag
    rw [hget]
    simp only [if_pos hmem]
  refine ⟨hpre, ?_, ?_⟩
  · intro f s library_id tag access_ok available_tags lib hget hmem
    unfold addTagEndpoint
    rw [hpre s library_id tag access_ok available_tags lib hget hmem]
  · intro s library_id tag h0 h1 hlook hnodup hlook1
    unfold Storage.add_tag_to_index at hlook1
    rw [hlook] at hlook1
    by_cases hmem : tag ∈ h0.tags
    · simp only [if_pos hmem, hlook] at hlook1
      have hinj := Option.some.inj hlook1
      subst hinj
      exact hnodup
    · simp only [if_neg hmem, alistLookup_update_self, hlook,
        Option.map_some'] at hlook1
      have hinj := Option.some.inj hlook1
      subst hinj
      have happ : (h0.tags ++ [tag]).Nodup := by
        simp [List.nodup_append, hnodup, hmem]
      exact ((pySortReverse_perm (h0.tags ++ [tag])).nodup_iff).mpr happ

/-- C5 witness: the precondition clause applied at the concrete store
`stGit2`, whose library `lib1` already carries tag `"v1"`. -/
theorem duplicate_tag_rejected_witness :
    addTagEndpoint fAddOk stGit2 "lib1" "v1" true ["v1"] =
      (.error (.validationError "Tag v1 already exists"), stGit2) := by
  have h := duplicate_tag_rejected.2.1 fAddOk stGit2 "lib1" "v1" true ["v1"]
    { id := "lib1", title := "t", description := "d", org := "o",
      project := "p", state := .finalized, tags := ["v1"],
      repoUrl := some "https://git.example.com/o/p",
      accessToken := some "tok", branch := some "main",
      lastCommitId := some "c0", totalTokens := some 5 }
    (by decide) (by decide)
  simpa using h

theorem take_drop_disjoint {α : Type} (l : List α) (limit o₁ o₂ : Nat)
    (hnd : l.Nodup) (h : o₁ + limit ≤ o₂) :
    List.Disjoint ((l.drop o₁).take limit) ((l.drop o₂).take limit) := by
  intro a ha hb
  have hsplit := (List.take_append_drop limit (l.drop o₁)).symm
  rw [List.drop_drop] at hsplit
  have hnd1 : (l.drop o₁).Nodup := hnd.sublist (List.drop_sublist _ _)
  rw [hsplit] at hnd1
  have hdisj := (List.nodup_append.mp hnd1).2.2
  have hmem2 : a ∈ l.drop (o₁ + limit) := by
    have h2 : a ∈ l.drop o₂ := List.take_subset _ _ hb
    have heq : l.drop o₂ = (l.drop (o₁ + limit)).drop (o₂ - (o₁ + limit)) := by
      rw [List.drop_drop]
      congr 1
      omega
    rw [heq] at h2
    exact List.drop_subset _ _ h2
  exact hdisj ha hmem2

/-- C7: catalog search with a truthy query text ignores `offset` entirely —
the result is the same for every offset — while with no query text the
listing mode pages with `limit`/`offset`, and pages whose offsets differ
by at least `limit` are disjoint (over a duplicate-free catalog). -/
theorem search_ignores_offset_for_query :
    (∀ (s : Storage) (rank : List Int → List LibHeader)
        (embedded : Except AppErr (List Int)) (q : String)
        (limit o₁ o₂ : Nat),
      q.isEmpty = false →
      LibraryService.search s rank embedded (some q) limit o₁ =
        LibraryService.search s rank embedded (some q) limit o₂) ∧
    (∀ (s : Storage) (rank : List Int → List LibHeader)
        (embedded : Except AppErr (List Int)) (limit o₁ o₂ : Nat),
      (s.headers.map Prod.snd).Nodup →
      o₁ + limit ≤ o₂ →
      List.Disjoint
        (LibraryService.search s rank embedded none limit o₁)
        (LibraryService.search s rank embedded none limit o₂)) := by
  constructor
  · intro s rank embedded q limit o₁ o₂ hq
    cases embedded with
    | error e => simp [LibraryService.search, hq]
    | ok v => simp [LibraryService.search, hq, Storage.search]
  · intro s rank embedded limit o₁ o₂ hnd hle
    exact take_drop_disjoint (s.headers.map Prod.snd) limit o₁ o₂ hnd hle

/-- C7 witness: at the four-library catalog, searching with query text
`"x"` returns the same page for offsets 0 and 10, and the listing pages at
offsets 0 and 2 (limit 2) are disjoint. -/
theorem search_ignores_offset_for_query_witness :
    ("x".isEmpty = false ∧
      LibraryService.search stCatalog (fun _ => []) (.ok []) (some "x") 2 0 =
        LibraryService.search stCatalog (fun _ => []) (.ok []) (some "x") 2 10) ∧
    ((stCatalog.headers.map Prod.snd).Nodup ∧ 0 + 2 ≤ 2 ∧
      List.Disjoint
        (LibraryService.search stCatalog (fun _ => []) (.ok []) none 2 0)
        (LibraryService.search stCatalog (fun _ => []) (.ok []) none 2 2)) :=
  ⟨⟨rfl,
    search_ignores_offset_for_query.1 stCatalog (fun _ => []) (.ok [])
      "x" 2 0 10 rfl⟩,
   by decide,
   by decide,
   search_ignores_offset_for_query.2 stCatalog (fun _ => []) (.ok [])
     2 0 2 (by decide) (by decide)⟩

/-- C8: a rebuild request whose origin's current revision marker equals the
stored `last_commit_id` is rejected by `precheck_rebuild` with the
no-changes `ValidationError`, and the endpoint returns with the store
completely unchanged — the rebuild task is never scheduled. -/
theorem noop_rebuild_rejected
    (f : LibraryService.RebuildFaults) (s : Storage)
    (library_id : String) (current_commit : Option String)
    (lib : LibHeader)
    (hget : Storage.get_by_id s library_id = .ok lib)
    (hrepo : optStrTruthy lib.repoUrl = true)
    (hstate : lib.state ≠ .processing)
    (hfrom : fromLibraryOk lib = true)
    (hcomm : current_commit = lib.lastCommitId) :
    rebuildEndpoint f s library_id true current_commit =
      (.error (.validationError
        "No changes detected since last build. Rebuild not needed."), s) := by
  have hproc : LibraryService.is_processing s library_id = false := by
    simp [LibraryService.is_processing, hget, hstate]
  simp [rebuildEndpoint, LibraryService.precheck_rebuild, hget, hrepo,
    hproc, hfrom, hcomm]

/-- C8 witness: a no-op rebuild of the fixture repository library is
rejected and changes nothing. -/
theorem noop_rebuild_rejected_witness :
    rebuildEndpoint { processed := .ok [snA] } stGit1 "lib1" true
        (some "c0") =
      (.error (.validationError
        "No changes detected since last build. Rebuild not needed."),
        stGit1) :=
  noop_rebuild_rejected { processed := .ok [snA] } stGit1 "lib1"
    (some "c0")
    { id := "lib1", title := "t", description := "d", org := "o",
      project := "p", state := .finalized, tags := [],
      repoUrl := some "https://git.example.com/o/p",
      accessToken := some "tok", branch := some "main",
      lastCommitId := some "c0", totalTokens := some 5 }
    (by decide) (by decide) (by decide) (by decide) (by decide)

theorem save_snippets_headers (s : Storage) (sn : List Snippet)
    (library_id : String) :
    (Storage.save_snippets s sn library_id).headers = s.headers := by
  unfold Storage.save_snippets
  split <;> rfl

theorem formatError_ne_empty (e : AppErr) (tb : String) :
    LibraryService.formatError e tb ≠ "" := by
  intro h
  have hlen := congrArg String.length h
  have h13 : ("\n\nTraceback:\n" : String).length = 13 := rfl
  simp only [LibraryService.formatError, String.length_append, h13] at hlen
  simp at hlen

/-- Shared shape lemma: when `create`'s body fails after the header was
initialized (content processing, snippet storage, or finalize), the
rollback leaves no partition for the library and a header row with
`state=failed` carrying the formatted diagnostic. -/
theorem create_post_init_failure
    (f : LibraryService.CreateFaults) (s : Storage)
    (library_id title description org project : String) (vec : List Int)
    (hemb : f.embedding = .ok vec)
    (hfail : (∃ e, f.processed = .error e) ∨ f.saveError ≠ none ∨
      f.completeError ≠ none) :
    ∃ e,
      (LibraryService.create f s library_id title description org
        project).1 = .error e ∧
      alistLookup (LibraryService.create f s library_id title description
        org project).2.partitions library_id = none ∧
      alistLookup (LibraryService.create f s library_id title description
        org project).2.headers library_id =
        some { id := library_id, title := title,
               description := description, org := org, project := project,
               state := .failed, tags := [], vector := vec,
               errorMessage :=
                 some (LibraryService.formatError e f.tb) } := by
  cases hproc : f.processed with
  | error e =>
    refine ⟨e, ?_, ?_, ?_⟩ <;>
      simp [LibraryService.create, LibraryService.createBody, hemb, hproc,
        Storage.cleanup_failed_library, Storage.initLibrary,
        alistLookup_erase_self, alistLookup_update_self,
        alistLookup_upsert_self]
  | ok snippets =>
    cases hsave : f.saveError with
    | some e =>
      refine ⟨e, ?_, ?_, ?_⟩ <;>
        simp [LibraryService.create, LibraryService.createBody, hemb,
          hproc, hsave, Storage.cleanup_failed_library,
          Storage.initLibrary, alistLookup_erase_self,
          alistLookup_update_self, alistLookup_upsert_self]
    | none =>
      cases hcomp : f.completeError with
      | some e =>
        refine ⟨e, ?_, ?_, ?_⟩ <;>
          simp [LibraryService.create, LibraryService.createBody, hemb,
            hproc, hsave, hcomp, Storage.cleanup_failed_library,
            Storage.initLibrary, alistLookup_erase_self,
            alistLookup_update_self, alistLookup_upsert_self,
            save_snippets_headers]
      | none =>
        rcases hfail with ⟨e, he⟩ | hne | hne
        · rw [hproc] at he
          cases he
        · exact absurd hsave hne
        · exact absurd hcomp hne

/-- C3: when any step of `create` after header initialization fails, the
partition is deleted, the header row is kept with `state=failed` and a
non-empty diagnostic that contains the error message, and the error is
re-raised to the caller. -/
theorem create_failure_rollback
    (f : LibraryService.CreateFaults) (s : Storage)
    (library_id title description org project : String) (vec : List Int)
    (hemb : f.embedding = .ok vec)
    (hfail : (∃ e, f.processed = .error e) ∨ f.saveError ≠ none ∨
      f.completeError ≠ none) :
    ∃ e,
      (LibraryService.create f s library_id title description org
        project).1 = .error e ∧
      Storage.collection_exists
        (LibraryService.create f s library_id title description org
          project).2 library_id = false ∧
      (∃ h,
        alistLookup (LibraryService.create f s library_id title
          description org project).2.headers library_id = some h ∧
        h.state = .failed ∧
        h.errorMessage = some (LibraryService.formatError e f.tb) ∧
        LibraryService.formatError e f.tb ≠ "" ∧
        (∃ rest, LibraryService.formatError e f.tb =
          e.message ++ rest)) := by
  obtain ⟨e, h1, h2, h3⟩ := create_post_init_failure f s library_id title
    description org project vec hemb hfail
  refine ⟨e, h1, ?_, ⟨_, h3, rfl, rfl, formatError_ne_empty e f.tb,
    ⟨"\n\nTraceback:\n" ++ f.tb, ?_⟩⟩⟩
  · simp [Storage.collection_exists, h2]
  · simp [LibraryService.formatError, String.append_assoc]

/-- C3 witness: the rollback conclusion at the concrete failed `create`
of library `lib2`. -/
theorem create_failure_rollback_witness :
    ∃ e,
      (LibraryService.create fCreateBoom stEmpty "lib2" "t" "d" "o"
        "p").1 = .error e ∧
      Storage.collection_exists
        (LibraryService.create fCreateBoom stEmpty "lib2" "t" "d" "o"
          "p").2 "lib2" = false ∧
      (∃ h,
        alistLookup (LibraryService.create fCreateBoom stEmpty "lib2" "t"
          "d" "o" "p").2.headers "lib2" = some h ∧
        h.state = .failed ∧
        h.errorMessage = some (LibraryService.formatError e
          fCreateBoom.tb) ∧
        LibraryService.formatError e fCreateBoom.tb ≠ "" ∧
        (∃ rest, LibraryService.formatError e fCreateBoom.tb =
          e.message ++ rest)) :=
  create_failure_rollback fCreateBoom stEmpty "lib2" "t" "d" "o" "p" []
    rfl (Or.inl ⟨.serviceError "boom", rfl⟩)

/-- C10: after a failed `create`, the partition is gone while the
`state=failed` header row remains; since `exists` consults only
`collection_exists` on the partition, the library id reads as free again
and a second create for the same canonical name passes the
already-exists precondition. -/
theorem failed_create_frees_name
    (f f2 : LibraryService.CreateFaults) (s : Storage)
    (library_id title description org project : String) (vec : List Int)
    (hemb : f.embedding = .ok vec)
    (hfail : (∃ e, f.processed = .error e) ∨ f.saveError ≠ none ∨
      f.completeError ≠ none) :
    LibraryService.existsLib
      (LibraryService.create f s library_id title description org
        project).2 library_id = false ∧
    (∃ h,
      alistLookup (LibraryService.create f s library_id title description
        org project).2.headers library_id = some h ∧
      h.state = .failed) ∧
    (createFromContentEndpoint f2
      (LibraryService.create f s library_id title description org
        project).2 library_id title description org project).1 =
      .ok () ∧
    createGitEndpoint
      (LibraryService.create f s library_id title description org
        project).2 library_id (providerName org project) true =
      .ok () := by
  obtain ⟨e, _, h2, h3⟩ := create_post_init_failure f s library_id title
    description org project vec hemb hfail
  have hex : LibraryService.existsLib
      (LibraryService.create f s library_id title description org
        project).2 library_id = false := by
    simp [LibraryService.existsLib, Storage.collection_exists, h2]
  refine ⟨hex, ⟨_, h3, rfl⟩, ?_, ?_⟩
  · simp [createFromContentEndpoint, hex]
  · simp [createGitEndpoint, hex]

/-- C10 witness: the failed create of `lib2` leaves the name free for a
second create despite the surviving failed header. -/
theorem failed_create_frees_name_witness :
    LibraryService.existsLib stFail "lib2" = false ∧
    (∃ h, alistLookup stFail.headers "lib2" = some h ∧
      h.state = .failed) ∧
    (createFromContentEndpoint fCreateBoom stFail "lib2" "t" "d" "o"
      "p").1 = .ok () ∧
    createGitEndpoint stFail "lib2" (providerName "o" "p") true =
      .ok () :=
  failed_create_frees_name fCreateBoom fCreateBoom stEmpty "lib2" "t" "d"
    "o" "p" [] rfl (Or.inl ⟨.serviceError "boom", rfl⟩)

theorem complete_library_partitions (s : Storage) (library_id : String)
    (n : Nat) :
    (Storage.complete_library s library_id n).partitions = s.partitions :=
  rfl

theorem add_tag_to_index_of_none (s : Storage) (library_id tag : String)
    (hlook : alistLookup s.headers library_id = none) :
    Storage.add_tag_to_index s library_id tag = s := by
  unfold Storage.add_tag_to_index
  rw [hlook]

theorem add_tag_to_index_of_mem (s : Storage) (library_id tag : String)
    (h0 : LibHeader) (hlook : alistLookup s.headers library_id = some h0)
    (hmem : tag ∈ h0.tags) :
    Storage.add_tag_to_index s library_id tag = s := by
  unfold Storage.add_tag_to_index
  rw [hlook]
  simp [hmem]

theorem add_tag_to_index_partitions (s : Storage) (library_id tag : String) :
    (Storage.add_tag_to_index s library_id tag).partitions =
      s.partitions := by
  cases hl : alistLookup s.headers library_id with
  | none => rw [add_tag_to_index_of_none s library_id tag hl]
  | some h =>
    by_cases hmem : tag ∈ h.tags
    · rw [add_tag_to_index_of_mem s library_id tag h hl hmem]
    · unfold Storage.add_tag_to_index
      rw [hl]
      simp [hmem]

theorem add_tag_to_index_totalTokens (s : Storage) (library_id tag : String) :
    (alistLookup (Storage.add_tag_to_index s library_id tag).headers
      library_id).map LibHeader.totalTokens =
    (alistLookup s.headers library_id).map LibHeader.totalTokens := by
  cases hl : alistLookup s.headers library_id with
  | none => rw [add_tag_to_index_of_none s library_id tag hl, hl]
  | some h =>
    by_cases hmem : tag ∈ h.tags
    · rw [add_tag_to_index_of_mem s library_id tag h hl hmem, hl]
    · rw [add_tag_to_index_of_not_mem s library_id tag h hl hmem]
      rfl

theorem payloadTokenSum_append (a b : List SnippetPayload) :
    payloadTokenSum (a ++ b) = payloadTokenSum a + payloadTokenSum b := by
  simp [payloadTokenSum]

theorem payloadTokenSum_toPayload (sn : List Snippet) :
    payloadTokenSum (sn.map Snippet.toPayload) = snippetTokenSum sn := by
  simp only [payloadTokenSum, snippetTokenSum, List.map_map]
  rfl

theorem snippetTokenSum_retag (sn : List Snippet) (tag : String) :
    snippetTokenSum (sn.map (fun s => { s with tag := some tag })) =
      snippetTokenSum sn := by
  simp only [snippetTokenSum, List.map_map]
  rfl

theorem save_snippets_partitions_lookup (s : Storage) (sn : List Snippet)
    (library_id : String) :
    alistLookup (Storage.save_snippets s sn library_id).partitions
        library_id =
      if sn.isEmpty then alistLookup s.partitions library_id
      else (alistLookup s.partitions library_id).map
        (· ++ sn.map Snippet.toPayload) := by
  unfold Storage.save_snippets
  by_cases h : sn.isEmpty <;> simp [h, alistLookup_update_self]

/-- C2 counterexample: starting from the empty store, a successful
`create_from_git` stores one 5-token snippet (`total_tokens = 5`), and a
subsequent successful `add_tag "v1"` stores one further 7-token snippet;
the partition then sums to 12 tokens while the stored `total_tokens` is
still 5, so the claimed invariant fails after `add_tag`. -/
theorem total_tokens_after_add_tag_counterexample :
    (LibraryService.add_tag fAddOk stGit1 "lib1" "v1").1 = .ok () ∧
    (alistLookup stGit2.headers "lib1").map LibHeader.totalTokens =
      some (some 5) ∧
    (alistLookup stGit2.partitions "lib1").map payloadTokenSum =
      some 12 ∧
    (alistLookup stGit2.headers "lib1").map LibHeader.totalTokens ≠
      (alistLookup stGit2.partitions "lib1").map
        (fun pts => some (payloadTokenSum pts)) := by
  refine ⟨by decide, by decide, by decide, by decide⟩

/-- C2 (amended): the stored `total_tokens` equals the token sum of the
partition's snippets at each successful `create` finalize; but `add_tag`
never updates `total_tokens` — it appends its snippets' tokens to the
partition while leaving the header's `total_tokens` unchanged — so the
equality does not extend across a successful `add_tag`. -/
theorem total_tokens_finalize_amended :
    (∀ (f : LibraryService.CreateFaults) (s : Storage)
        (library_id title description org project : String)
        (vec : List Int) (snippets : List Snippet),
      f.embedding = .ok vec → f.processed = .ok snippets →
      f.saveError = none → f.completeError = none →
      (LibraryService.create f s library_id title description org
        project).1 = .ok () ∧
      (∃ pts h,
        alistLookup (LibraryService.create f s library_id title
          description org project).2.partitions library_id = some pts ∧
        alistLookup (LibraryService.create f s library_id title
          description org project).2.headers library_id = some h ∧
        h.state = .finalized ∧
        h.totalTokens = some (payloadTokenSum pts))) ∧
    (∀ (f : LibraryService.AddTagFaults) (s : Storage)
        (library_id tag : String),
      (alistLookup (LibraryService.add_tag f s library_id
        tag).2.headers library_id).map LibHeader.totalTokens =
      (alistLookup s.headers library_id).map LibHeader.totalTokens) ∧
    (∀ (f : LibraryService.AddTagFaults) (s : Storage)
        (library_id tag : String) (snippets : List Snippet)
        (pts0 : List SnippetPayload),
      f.processed = .ok snippets →
      (LibraryService.add_tag f s library_id tag).1 = .ok () →
      alistLookup s.partitions library_id = some pts0 →
      ∃ pts1,
        alistLookup (LibraryService.add_tag f s library_id
          tag).2.partitions library_id = some pts1 ∧
        payloadTokenSum pts1 =
          payloadTokenSum pts0 + snippetTokenSum snippets) := by
  refine ⟨?_, ?_, ?_⟩
  · intro f s library_id title description org project vec snippets hemb
      hproc hsave hcomp
    have hcreate : LibraryService.create f s library_id title description
        org project =
        (.ok (), Storage.complete_library
          (Storage.save_snippets
            (Storage.initLibrary s library_id title description vec org
              project none)
            snippets library_id)
          library_id (snippetTokenSum snippets)) := by
      simp [LibraryService.create, LibraryService.createBody, hemb, hproc,
        hsave, hcomp]
    rw [hcreate]
    refine ⟨rfl, ?_⟩
    have hpart0 : alistLookup (Storage.initLibrary s library_id title
        description vec org project none).partitions library_id =
        some [] := by
      simp [Storage.initLibrary, alistLookup_upsert_self]
    have hhead0 : alistLookup (Storage.initLibrary s library_id title
        description vec org project none).headers library_id =
        some { id := library_id, title := title,
               description := description, org := org, project := project,
               state := .processing, tags := [], vector := vec } := by
      simp [Storage.initLibrary, alistLookup_upsert_self]
    have hpart : alistLookup (Storage.save_snippets
        (Storage.initLibrary s library_id title description vec org
          project none) snippets library_id).partitions library_id =
        some (snippets.map Snippet.toPayload) := by
      rw [save_snippets_partitions_lookup]
      cases snippets with
      | nil => simpa using hpart0
      | cons a as => simp [hpart0]
    refine ⟨snippets.map Snippet.toPayload,
      { id := library_id, title := title, description := description,
        org := org, project := project, state := .finalized, tags := [],
        vector := vec,
        totalTokens := some (snippetTokenSum snippets) },
      ?_, ?_, rfl, ?_⟩
    · rw [complete_library_partitions]
      exact hpart
    · unfold Storage.complete_library
      rw [alistLookup_update_self, save_snippets_headers, hhead0]
      rfl
    · simp [payloadTokenSum_toPayload]
  · intro f s library_id tag
    cases hget : Storage.get_by_id s library_id with
    | error e => simp [LibraryService.add_tag, hget]
    | ok lib =>
      by_cases hfl : fromLibraryOk lib = true
      · cases hproc : f.processed with
        | error e => simp [LibraryService.add_tag, hget, hfl, hproc]
        | ok snippets =>
          cases hsave : f.saveError with
          | some e => simp [LibraryService.add_tag, hget, hfl, hproc, hsave]
          | none =>
            cases hidx : f.indexError with
            | some e =>
              simp [LibraryService.add_tag, hget, hfl, hproc, hsave, hidx,
                save_snippets_headers]
            | none =>
              simp [LibraryService.add_tag, hget, hfl, hproc, hsave, hidx,
                add_tag_to_index_totalTokens, save_snippets_headers]
      · have hfl' : fromLibraryOk lib = false := by
          revert hfl
          cases fromLibraryOk lib <;> simp
        simp [LibraryService.add_tag, hget, hfl']
  · intro f s library_id tag snippets pts0 hproc hok hpart
    cases hget : Storage.get_by_id s library_id with
    | error e => simp [LibraryService.add_tag, hget] at hok
    | ok lib =>
      by_cases hfl : fromLibraryOk lib = true
      · cases hsave : f.saveError with
        | some e =>
          simp [LibraryService.add_tag, hget, hfl, hproc, hsave] at hok
        | none =>
          cases hidx : f.indexError with
          | some e =>
            simp [LibraryService.add_tag, hget, hfl, hproc, hsave,
              hidx] at hok
          | none =>
            have hstate : (LibraryService.add_tag f s library_id tag).2 =
                Storage.add_tag_to_index
                  (Storage.save_snippets s
                    (snippets.map (fun sn => { sn with tag := some tag }))
                    library_id) library_id tag := by
              simp [LibraryService.add_tag, hget, hfl, hproc, hsave, hidx]
            refine ⟨pts0 ++ (snippets.map
              (fun sn => { sn with tag := some tag })).map
                Snippet.toPayload, ?_, ?_⟩
            · rw [hstate, add_tag_to_index_partitions,
                save_snippets_partitions_lookup]
              cases snippets with
              | nil => simpa using hpart
              | cons a as => simp [hpart]
            · rw [payloadTokenSum_append, payloadTokenSum_toPayload,
                snippetTokenSum_retag]
      · have hfl' : fromLibraryOk lib = false := by
          revert hfl
          cases fromLibraryOk lib <;> simp
        simp [LibraryService.add_tag, hget, hfl'] at hok

/-- C2 amended witness: the create clause at the concrete successful
`create` of a content library storing `snA` (5 tokens). -/
theorem total_tokens_finalize_amended_witness :
    (LibraryService.create
      { embedding := .ok [], processed := .ok [snA] } stEmpty "lib3" "t"
      "d" "o" "p").1 = .ok () ∧
    (∃ pts h,
      alistLookup (LibraryService.create
        { embedding := .ok [], processed := .ok [snA] } stEmpty "lib3"
        "t" "d" "o" "p").2.partitions "lib3" = some pts ∧
      alistLookup (LibraryService.create
        { embedding := .ok [], processed := .ok [snA] } stEmpty "lib3"
        "t" "d" "o" "p").2.headers "lib3" = some h ∧
      h.state = .finalized ∧
      h.totalTokens = some (payloadTokenSum pts)) :=
  total_tokens_finalize_amended.1
    { embedding := .ok [], processed := .ok [snA] } stEmpty "lib3" "t"
    "d" "o" "p" [] [snA] rfl rfl rfl rfl

theorem remove_tag_headers (s : Storage) (library_id tag : String) :
    (Storage.remove_tag s library_id tag).headers = s.headers := rfl

theorem set_state_processing_lookup (s : Storage) (library_id : String)
    (h0 : LibHeader) (hlook : alistLookup s.headers library_id = some h0) :
    alistLookup (LibraryService.set_state_processing s
      library_id).headers library_id =
      some { h0 with state := .processing } := by
  unfold LibraryService.set_state_processing
  rw [alistLookup_update_self, hlook]
  rfl

theorem set_state_failed_lookup (s : Storage) (library_id : String)
    (e : AppErr) (h0 : LibHeader)
    (hlook : alistLookup s.headers library_id = some h0) :
    alistLookup (LibraryService.set_state_failed s library_id e).headers
      library_id =
      some { h0 with state := .failed, errorMessage := some e.message } := by
  unfold LibraryService.set_state_failed
  rw [alistLookup_update_self, hlook]
  rfl

/-- Shared shape lemma: when `rebuild`'s body fails on a library whose
header exists, the `except` branch leaves the header `state=failed` with
`error_message = str(e)` and re-raises. -/
theorem rebuild_failure_state
    (f : LibraryService.RebuildFaults) (s : Storage) (library_id : String)
    (h0 : LibHeader)
    (hlook : alistLookup s.headers library_id = some h0)
    (hfail : fromLibraryOk h0 = false ∨ (∃ e, f.processed = .error e) ∨
      f.saveError ≠ none) :
    ∃ e,
      (LibraryService.rebuild f s library_id).1 = .error e ∧
      alistLookup (LibraryService.rebuild f s library_id).2.headers
        library_id =
        some { h0 with state := .failed,
                       errorMessage := some e.message } := by
  have hmark := set_state_processing_lookup s library_id h0 hlook
  have hget2 : Storage.get_by_id
      (Storage.remove_tag (LibraryService.set_state_processing s
        library_id) library_id DEFAULT_LIBRARY_TAG) library_id =
      .ok { h0 with state := .processing } := by
    unfold Storage.get_by_id
    rw [remove_tag_headers, hmark]
  have hlook2 : alistLookup
      (Storage.remove_tag (LibraryService.set_state_processing s
        library_id) library_id DEFAULT_LIBRARY_TAG).headers library_id =
      some { h0 with state := .processing } := by
    rw [remove_tag_headers, hmark]
  by_cases hfl : fromLibraryOk h0 = true
  · have hflP : fromLibraryOk { h0 with state := LibraryStatus.processing } =
        true := hfl
    cases hproc : f.processed with
    | error e =>
      refine ⟨e, ?_, ?_⟩ <;>
        simp [LibraryService.rebuild, LibraryService.rebuildCore, hget2,
          hflP, hproc, set_state_failed_lookup _ _ _ _ hlook2]
    | ok snippets =>
      cases hsave : f.saveError with
      | some e =>
        refine ⟨e, ?_, ?_⟩ <;>
          simp [LibraryService.rebuild, LibraryService.rebuildCore, hget2,
            hflP, hproc, hsave, set_state_failed_lookup _ _ _ _ hlook2]
      | none =>
        rcases hfail with hfrom | ⟨e, he⟩ | hne
        · rw [hfl] at hfrom
          cases hfrom
        · rw [hproc] at he
          cases he
        · exact absurd hsave hne
  · have hfl' : fromLibraryOk h0 = false := by
      revert hfl
      cases fromLibraryOk h0 <;> simp
    have hfl'P : fromLibraryOk { h0 with state := LibraryStatus.processing } =
        false := hfl'
    refine ⟨.validationError "Missing required repository information",
      ?_, ?_⟩ <;>
      simp [LibraryService.rebuild, LibraryService.rebuildCore, hget2,
        hfl'P, set_state_failed_lookup _ _ _ _ hlook2]

/-- Shared shape lemma: `add_tag` has no recovery block — whenever it
returns an error, the header collection is exactly that of the input
store: no `state=failed`, no error detail is ever written. -/
theorem add_tag_error_headers
    (f : LibraryService.AddTagFaults) (s : Storage)
    (library_id tag : String) (e : AppErr)
    (herr : (LibraryService.add_tag f s library_id tag).1 = .error e) :
    (LibraryService.add_tag f s library_id tag).2.headers = s.headers := by
  cases hget : Storage.get_by_id s library_id with
  | error e' => simp [LibraryService.add_tag, hget]
  | ok lib =>
    by_cases hfl : fromLibraryOk lib = true
    · cases hproc : f.processed with
      | error e' => simp [LibraryService.add_tag, hget, hfl, hproc]
      | ok snippets =>
        cases hsave : f.saveError with
        | some e' => simp [LibraryService.add_tag, hget, hfl, hproc, hsave]
        | none =>
          cases hidx : f.indexError with
          | some e' =>
            simp [LibraryService.add_tag, hget, hfl, hproc, hsave, hidx,
              save_snippets_headers]
          | none =>
            simp [LibraryService.add_tag, hget, hfl, hproc, hsave,
              hidx] at herr
    · have hfl' : fromLibraryOk lib = false := by
        revert hfl
        cases fromLibraryOk lib <;> simp
      simp [LibraryService.add_tag, hget, hfl']

/-- Shared shape lemma: when `add_tag` fails at any point before the
tag-index update — precondition read, fetch/process, or snippet storage —
the store comes back wholly unchanged. -/
theorem add_tag_error_frame
    (f : LibraryService.AddTagFaults) (s : Storage)
    (library_id tag : String) (e : AppErr)
    (hidx : f.indexError = none)
    (herr : (LibraryService.add_tag f s library_id tag).1 = .error e) :
    (LibraryService.add_tag f s library_id tag).2 = s := by
  cases hget : Storage.get_by_id s library_id with
  | error e' => simp [LibraryService.add_tag, hget]
  | ok lib =>
    by_cases hfl : fromLibraryOk lib = true
    · cases hproc : f.processed with
      | error e' => simp [LibraryService.add_tag, hget, hfl, hproc]
      | ok snippets =>
        cases hsave : f.saveError with
        | some e' => simp [LibraryService.add_tag, hget, hfl, hproc, hsave]
        | none =>
          simp [LibraryService.add_tag, hget, hfl, hproc, hsave,
            hidx] at herr
    · have hfl' : fromLibraryOk lib = false := by
        revert hfl
        cases fromLibraryOk lib <;> simp
      simp [LibraryService.add_tag, hget, hfl']

/-- Shared shape lemma: when `add_tag`'s tag-index update raises after
`save_snippets` succeeded (the spec's mid-header-update mode), the error
propagates while the partition already holds the new tag's snippets and
the header is untouched. -/
theorem add_tag_index_failure_state
    (f : LibraryService.AddTagFaults) (s : Storage)
    (library_id tag : String) (snippets : List Snippet) (e : AppErr)
    (lib : LibHeader)
    (hget : Storage.get_by_id s library_id = .ok lib)
    (hfl : fromLibraryOk lib = true)
    (hproc : f.processed = .ok snippets)
    (hsave : f.saveError = none)
    (hidx : f.indexError = some e) :
    LibraryService.add_tag f s library_id tag =
      (.error e,
        Storage.save_snippets s
          (snippets.map (fun sn => { sn with tag := some tag }))
          library_id) := by
  simp [LibraryService.add_tag, hget, hfl, hproc, hsave, hidx]

/-- C4 counterexample: a failing `add_tag` records nothing on the header —
the whole store comes back unchanged, the header still `finalized` with no
error detail — contradicting the claim that every mutation persists a
diagnostic to the header and sets `state=failed`. -/
theorem add_tag_failure_not_recorded_counterexample :
    LibraryService.add_tag fAddBoom stGit1 "lib1" "v1" =
      (.error (.serviceError "boom"), stGit1) ∧
    (alistLookup stGit1.headers "lib1").map LibHeader.state =
      some .finalized ∧
    (alistLookup stGit1.headers "lib1").map LibHeader.errorMessage =
      some none := by
  refine ⟨by decide, by decide, by decide⟩

/-- C4 (amended): `create` and `rebuild` wrap their bodies in one
top-level recovery block that persists the diagnostic to the header's
error detail, sets `state=failed` and re-raises; `add_tag`, however, has
no recovery block — any failure propagates to the caller without ever
touching the header (no error detail, no state change): a failure before
the tag-index update leaves the store wholly unchanged, while a tag-index
failure after snippet storage leaves the new tag's snippets in the
partition yet still records nothing on the header. -/
theorem mutation_failure_recording_amended :
    (∀ (f : LibraryService.CreateFaults) (s : Storage)
        (library_id title description org project : String)
        (vec : List Int),
      f.embedding = .ok vec →
      ((∃ e, f.processed = .error e) ∨ f.saveError ≠ none ∨
        f.completeError ≠ none) →
      ∃ e,
        (LibraryService.create f s library_id title description org
          project).1 = .error e ∧
        (alistLookup (LibraryService.create f s library_id title
          description org project).2.headers library_id).map
            LibHeader.state = some .failed ∧
        (alistLookup (LibraryService.create f s library_id title
          description org project).2.headers library_id).map
            LibHeader.errorMessage =
          some (some (LibraryService.formatError e f.tb))) ∧
    (∀ (f : LibraryService.RebuildFaults) (s : Storage)
        (library_id : String) (h0 : LibHeader),
      alistLookup s.headers library_id = some h0 →
      (fromLibraryOk h0 = false ∨ (∃ e, f.processed = .error e) ∨
        f.saveError ≠ none) →
      ∃ e,
        (LibraryService.rebuild f s library_id).1 = .error e ∧
        (alistLookup (LibraryService.rebuild f s
          library_id).2.headers library_id).map LibHeader.state =
          some .failed ∧
        (alistLookup (LibraryService.rebuild f s
          library_id).2.headers library_id).map LibHeader.errorMessage =
          some (some e.message)) ∧
    (∀ (f : LibraryService.AddTagFaults) (s : Storage)
        (library_id tag : String) (e : AppErr),
      (LibraryService.add_tag f s library_id tag).1 = .error e →
      (LibraryService.add_tag f s library_id tag).2.headers = s.headers ∧
      (f.indexError = none →
        (LibraryService.add_tag f s library_id tag).2 = s)) ∧
    (∀ (f : LibraryService.AddTagFaults) (s : Storage)
        (library_id tag : String) (snippets : List Snippet) (e : AppErr)
        (lib : LibHeader),
      Storage.get_by_id s library_id = .ok lib →
      fromLibraryOk lib = true →
      f.processed = .ok snippets →
      f.saveError = none →
      f.indexError = some e →
      LibraryService.add_tag f s library_id tag =
        (.error e,
          Storage.save_snippets s
            (snippets.map (fun sn => { sn with tag := some tag }))
            library_id)) := by
  refine ⟨?_, ?_, ?_, ?_⟩
  · intro f s library_id title description org project vec hemb hfail
    obtain ⟨e, h1, _, h3⟩ := create_post_init_failure f s library_id title
      description org project vec hemb hfail
    exact ⟨e, h1, by rw [h3]; rfl, by rw [h3]; rfl⟩
  · intro f s library_id h0 hlook hfail
    obtain ⟨e, h1, h2⟩ := rebuild_failure_state f s library_id h0 hlook
      hfail
    exact ⟨e, h1, by rw [h2]; rfl, by rw [h2]; rfl⟩
  · intro f s library_id tag e herr
    exact ⟨add_tag_error_headers f s library_id tag e herr,
      fun hidx => add_tag_error_frame f s library_id tag e hidx herr⟩
  · intro f s library_id tag snippets e lib hget hfl hproc hsave hidx
    exact add_tag_index_failure_state f s library_id tag snippets e lib
      hget hfl hproc hsave hidx

/-- C4 witness: the add-tag clauses at a concrete failing `add_tag`
(processing failure: store wholly unchanged; tag-index failure: snippets
stored, header untouched), and the create clause at the concrete failing
`create`. -/
theorem mutation_failure_recording_amended_witness :
    ((LibraryService.add_tag fAddBoom stGit1 "lib1" "v1").1 =
      .error (.serviceError "boom") ∧
     (LibraryService.add_tag fAddBoom stGit1 "lib1" "v1").2.headers =
       stGit1.headers ∧
     (fAddBoom.indexError = none →
       (LibraryService.add_tag fAddBoom stGit1 "lib1" "v1").2 =
         stGit1)) ∧
    (LibraryService.add_tag fAddIdxBoom stGit1 "lib1" "v1" =
      (.error (.serviceError "idx"),
        Storage.save_snippets stGit1
          ([snB].map (fun sn => { sn with tag := some "v1" }))
          "lib1")) ∧
    (∃ e,
      (LibraryService.create fCreateBoom stEmpty "lib2" "t" "d" "o"
        "p").1 = .error e ∧
      (alistLookup stFail.headers "lib2").map LibHeader.state =
        some .failed ∧
      (alistLookup stFail.headers "lib2").map LibHeader.errorMessage =
        some (some (LibraryService.formatError e fCreateBoom.tb))) :=
  ⟨⟨by decide,
    (mutation_failure_recording_amended.2.2.1 fAddBoom stGit1 "lib1"
      "v1" (.serviceError "boom") (by decide)).1,
    fun h => (mutation_failure_recording_amended.2.2.1 fAddBoom stGit1
      "lib1" "v1" (.serviceError "boom") (by decide)).2 h⟩,
   mutation_failure_recording_amended.2.2.2 fAddIdxBoom stGit1 "lib1"
     "v1" [snB] (.serviceError "idx")
     { id := "lib1", title := "t", description := "d", org := "o",
       project := "p", state := .finalized, tags := [],
       repoUrl := some "https://git.example.com/o/p",
       accessToken := some "tok", branch := some "main",
       lastCommitId := some "c0", totalTokens := some 5 }
     (by decide) (by decide) rfl rfl rfl,
   mutation_failure_recording_amended.1 fCreateBoom stEmpty "lib2" "t"
     "d" "o" "p" [] rfl (Or.inl ⟨.serviceError "boom", rfl⟩)⟩

theorem set_state_processing_partitions (s : Storage)
    (library_id : String) :
    (LibraryService.set_state_processing s library_id).partitions =
      s.partitions := rfl

theorem set_state_failed_partitions (s : Storage) (library_id : String)
    (e : AppErr) :
    (LibraryService.set_state_failed s library_id e).partitions =
      s.partitions := rfl

theorem complete_partitions (s : Storage) (library_id : String)
    (commit_id : Option String) (n : Nat) :
    (Storage.complete s library_id commit_id n).partitions =
      s.partitions := rfl

/-- Shared preservation lemma: whatever `rebuild` does — succeed or fail
at any injected point — every snippet point whose tag is not the default
label survives in the library's partition. -/
theorem rebuild_preserves_other_tags
    (f : LibraryService.RebuildFaults) (s : Storage) (library_id : String)
    (pts0 : List SnippetPayload) (p : SnippetPayload)
    (hpart : alistLookup s.partitions library_id = some pts0)
    (hmem : p ∈ pts0) (hptag : p.tag ≠ DEFAULT_LIBRARY_TAG) :
    ∃ pts1,
      alistLookup (LibraryService.rebuild f s
        library_id).2.partitions library_id = some pts1 ∧ p ∈ pts1 := by
  have hpart2 : alistLookup
      (Storage.remove_tag (LibraryService.set_state_processing s
        library_id) library_id DEFAULT_LIBRARY_TAG).partitions
        library_id =
      some (pts0.filter (fun q => q.tag ≠ DEFAULT_LIBRARY_TAG)) := by
    unfold Storage.remove_tag
    rw [alistLookup_update_self, set_state_processing_partitions, hpart]
    rfl
  have hmem2 : p ∈ pts0.filter (fun q => q.tag ≠ DEFAULT_LIBRARY_TAG) :=
    List.mem_filter.mpr ⟨hmem, by simp [hptag]⟩
  cases hget : Storage.get_by_id
      (Storage.remove_tag (LibraryService.set_state_processing s
        library_id) library_id DEFAULT_LIBRARY_TAG) library_id with
  | error e =>
    refine ⟨pts0.filter (fun q => q.tag ≠ DEFAULT_LIBRARY_TAG), ?_, hmem2⟩
    simp [LibraryService.rebuild, LibraryService.rebuildCore, hget,
      set_state_failed_partitions, hpart2]
  | ok lib =>
    by_cases hfl : fromLibraryOk lib = true
    · cases hproc : f.processed with
      | error e =>
        refine ⟨pts0.filter (fun q => q.tag ≠ DEFAULT_LIBRARY_TAG), ?_,
          hmem2⟩
        simp [LibraryService.rebuild, LibraryService.rebuildCore, hget,
          hfl, hproc, set_state_failed_partitions, hpart2]
      | ok snippets =>
        cases hsave : f.saveError with
        | some e =>
          refine ⟨pts0.filter (fun q => q.tag ≠ DEFAULT_LIBRARY_TAG), ?_,
            hmem2⟩
          simp [LibraryService.rebuild, LibraryService.rebuildCore, hget,
            hfl, hproc, hsave, set_state_failed_partitions, hpart2]
        | none =>
          refine ⟨pts0.filter (fun q => q.tag ≠ DEFAULT_LIBRARY_TAG) ++
            snippets.map Snippet.toPayload, ?_, List.mem_append_left _
              hmem2⟩
          have hstate : (LibraryService.rebuild f s library_id).2 =
              Storage.complete
                (Storage.save_snippets
                  (Storage.remove_tag (LibraryService.set_state_processing
                    s library_id) library_id DEFAULT_LIBRARY_TAG)
                  snippets library_id)
                library_id f.commitId (snippetTokenSum snippets) := by
            simp [LibraryService.rebuild, LibraryService.rebuildCore,
              hget, hfl, hproc, hsave]
          rw [hstate, complete_partitions,
            save_snippets_partitions_lookup]
          cases snippets with
          | nil => simpa using hpart2
          | cons a as => simp [hpart2]
    · have hfl' : fromLibraryOk lib = false := by
        revert hfl
        cases fromLibraryOk lib <;> simp
      refine ⟨pts0.filter (fun q => q.tag ≠ DEFAULT_LIBRARY_TAG), ?_,
        hmem2⟩
      simp [LibraryService.rebuild, LibraryService.rebuildCore, hget,
        hfl', set_state_failed_partitions, hpart2]

/-- C9: rebuild's deletion touches only the default tag — every snippet
stored under any other tag survives rebuild, whatever its outcome — and
the deletion operates on a store whose header has already been set to
`state=processing`: `rebuild` is, definitionally, `rebuildCore` (whose
first step is `remove_tag`) applied to the output of the eager
`set_state_processing` mark. -/
theorem rebuild_scoped_to_default_tag :
    (∀ (f : LibraryService.RebuildFaults) (s : Storage)
        (library_id : String),
      LibraryService.rebuild f s library_id =
        (match LibraryService.rebuildCore f
            (LibraryService.set_state_processing s library_id)
            library_id with
        | .ok s' => (.ok (), s')
        | .error (e, s') =>
          (.error e, LibraryService.set_state_failed s' library_id e))) ∧
    (∀ (s : Storage) (library_id : String) (h0 : LibHeader),
      alistLookup s.headers library_id = some h0 →
      alistLookup (LibraryService.set_state_processing s
        library_id).headers library_id =
        some { h0 with state := .processing }) ∧
    (∀ (f : LibraryService.RebuildFaults) (s : Storage)
        (library_id : String) (pts0 : List SnippetPayload)
        (p : SnippetPayload),
      alistLookup s.partitions library_id = some pts0 →
      p ∈ pts0 → p.tag ≠ DEFAULT_LIBRARY_TAG →
      ∃ pts1,
        alistLookup (LibraryService.rebuild f s
          library_id).2.partitions library_id = some pts1 ∧ p ∈ pts1) :=
  ⟨fun _ _ _ => rfl,
   set_state_processing_lookup,
   rebuild_preserves_other_tags⟩

/-- C9 witness: on `stGit2` (snippets under tags `latest` and `v1`), a
rebuild with a fresh revision marker keeps the `v1` snippet. -/
theorem rebuild_scoped_to_default_tag_witness :
    ∃ pts1,
      alistLookup (LibraryService.rebuild
        { processed := .ok [snA], commitId := some "c1" } stGit2
        "lib1").2.partitions "lib1" = some pts1 ∧
      Snippet.toPayload { snB with tag := some "v1" } ∈ pts1 :=
  rebuild_scoped_to_default_tag.2.2
    { processed := .ok [snA], commitId := some "c1" } stGit2 "lib1"
    [Snippet.toPayload snA, Snippet.toPayload { snB with tag := some "v1" }]
    (Snippet.toPayload { snB with tag := some "v1" })
    (by decide) (by decide) (by decide)

end OpenContext7
